import Mathlib

/-!
Verification of the transaction categorization engine of the IntelliFinance
backend (`backend/app/ml/transaction_categorizer.py`), as a shallow embedding:

* Python strings are `String`, confidences are `ℚ`, Python exceptions are an
  explicit `Except PyError` result, mutable global state is threaded
  explicitly through an `OrchestratorState`, and the model file on disk is a
  map from paths to serialized artifacts.
* The statistical internals (the fitted tf-idf vocabulary and the random
  forest) are embedded as abstract transition functions stored inside the
  categorizer state: the control flow around them is translated line by line
  from the source.
-/

namespace IntelliFinance

/-- A Python exception, identified by its message. -/
abbrev PyError := String

/-- Python truthiness of an optional string: `None` and `""` are falsy. -/
def pyTruthy : Option String → Bool
  | none => false
  | some s => s ≠ ""

/-- Modelled from the spec: the closed `TransactionCategory` enumeration is
defined in `app/models/transaction.py`, which is not part of the provided
source tree (only its importers are).  The spec describes it as a closed
enumeration of financial categories with `UNCATEGORIZED` as universal safe
default; the members below are exactly those the categorizer source
references. -/
inductive TransactionCategory where
  | GROCERIES
  | RESTAURANTS
  | GAS
  | GENERAL_MERCHANDISE
  | UTILITIES
  | MOVIES
  | MEDICAL
  | BANK_FEES
  | TRAVEL
  | EDUCATION
  | CHARITY
  | UNCATEGORIZED
  deriving DecidableEq

/-- Modelled from the spec: the string value of each enumeration member. -/
def TransactionCategory.value : TransactionCategory → String
  | .GROCERIES => "groceries"
  | .RESTAURANTS => "restaurants"
  | .GAS => "gas"
  | .GENERAL_MERCHANDISE => "general_merchandise"
  | .UTILITIES => "utilities"
  | .MOVIES => "movies"
  | .MEDICAL => "medical"
  | .BANK_FEES => "bank_fees"
  | .TRAVEL => "travel"
  | .EDUCATION => "education"
  | .CHARITY => "charity"
  | .UNCATEGORIZED => "uncategorized"

/-- The string values of the `CategoryLabel` enumeration. -/
def CategoryLabelStrings : List String :=
  ["groceries", "restaurants", "gas", "general_merchandise", "utilities",
   "movies", "medical", "bank_fees", "travel", "education", "charity",
   "uncategorized"]

/-- Python `str.lower()` (per character). -/
def pyLower (s : String) : String := ⟨s.data.map Char.toLower⟩

/-- Python `str.strip()` on a character list: drop whitespace on both ends. -/
def pyStripList (s : List Char) : List Char :=
  (((s.dropWhile Char.isWhitespace).reverse).dropWhile Char.isWhitespace).reverse

/-- Python `str.strip()`. -/
def pyStrip (s : String) : String := ⟨pyStripList s.data⟩

/-- Fuel-indexed worker for left-to-right non-overlapping deletion of a
nonempty pattern from a character list (Python `str.replace(pat, "")`).
The fuel is an upper bound on the number of characters still to scan. -/
def removeOccsAux : Nat → List Char → List Char → List Char
  | 0, _, s => s
  | _ + 1, _, [] => []
  | fuel + 1, pat, c :: rest =>
    if pat.isPrefixOf (c :: rest) then
      removeOccsAux fuel pat ((c :: rest).drop pat.length)
    else
      c :: removeOccsAux fuel pat rest

/-- Python `text.replace(pat, "")`: delete every (left-to-right,
non-overlapping) occurrence of `pat` in `text` as a literal substring. -/
def pyRemoveSubstr (text pat : String) : String :=
  if pat.data.isEmpty then text
  else ⟨removeOccsAux text.data.length pat.data text.data⟩

/-- The stop-term list of `preprocess_text` (source lines 49-52): ten terms,
including `"transaction"`. -/
def remove_terms : List String :=
  ["payment", "purchase", "transaction", "debit", "credit",
   "pos", "atm", "withdrawal", "deposit", "transfer"]

/-- `TransactionCategorizer.preprocess_text` (source lines 40-57): lowercase
and strip the description, append the lowercased-stripped merchant when the
merchant is truthy, delete each stop-term in order as a literal substring,
then strip. -/
def preprocess_text (description : String) (merchant : Option String) : String :=
  let text := pyStrip (pyLower description)
  let text :=
    if pyTruthy merchant then text ++ " " ++ pyStrip (pyLower (merchant.getD ""))
    else text
  let text := remove_terms.foldl (fun t term => pyRemoveSubstr t term) text
  pyStrip text

/-- The fitted state of the `TfidfVectorizer`: whether a vocabulary has been
fitted (`hasattr(vectorizer, "vocabulary_")`), and its `transform` on a single
preprocessed text (which, like the Python method, may raise, e.g.
`NotFittedError`). -/
structure Vectorizer where
  hasVocabulary : Bool
  transformOne : String → Except PyError (List ℚ)

/-- The fitted state of the `RandomForestClassifier`: `predict` on one
feature vector (returning one label, a plain string), and `predict_proba` on
one feature vector (returning the probability row).  Both may raise. -/
structure Classifier where
  predictOne : List ℚ → Except PyError String
  predictProbaOne : List ℚ → Except PyError (List ℚ)

/-- A freshly constructed `TfidfVectorizer`: no vocabulary, `transform`
raises `NotFittedError`. -/
def defaultVectorizer : Vectorizer :=
  { hasVocabulary := false, transformOne := fun _ => .error "NotFittedError" }

/-- A freshly constructed `RandomForestClassifier`: unfitted, both methods
raise `NotFittedError`. -/
def defaultClassifier : Classifier :=
  { predictOne := fun _ => .error "NotFittedError",
    predictProbaOne := fun _ => .error "NotFittedError" }

/-- Python `max(list)`: raises on an empty sequence, else scans keeping the
current element whenever the later one is not larger. -/
def pyMax : List ℚ → Except PyError ℚ
  | [] => .error "max() arg is an empty sequence"
  | x :: xs => .ok (xs.foldl (fun acc y => if acc < y then y else acc) x)

/-- The in-memory state of a `TransactionCategorizer` instance
(source lines 16-38). -/
structure TransactionCategorizer where
  model_path : String
  vectorizer : Vectorizer
  classifier : Classifier
  is_trained : Bool
  categories : List String

/-- The pickled model artifact written by `save_model` (source lines
191-196): a dict with the vectorizer, the classifier, the trained flag and
the category list; `categories` is optional because `load_model` reads it
with `dict.get` (a legacy artifact may lack the key). -/
structure TrainedModelArtifact where
  vectorizer : Vectorizer
  classifier : Classifier
  is_trained : Bool
  categories : Option (List String)

/-- The disk as seen by the Model Store: a map from paths to blobs.
`none` is a missing file; `some (.error e)` is a file that exists but fails
to unpickle; `some (.ok a)` is a well-formed artifact. -/
def Disk := String → Option (Except PyError TrainedModelArtifact)

/-- `TransactionCategorizer.save_model` (source lines 182-199): a no-op when
untrained, otherwise overwrite the single slot at `model_path` with the
artifact dict. -/
def save_model (c : TransactionCategorizer) (disk : Disk) : Disk :=
  if c.is_trained = false then disk
  else fun p =>
    if p = c.model_path then
      some (.ok ⟨c.vectorizer, c.classifier, c.is_trained, some c.categories⟩)
    else disk p

/-- `TransactionCategorizer.load_model` (source lines 201-217): missing file
leaves the instance unchanged; an unreadable blob is caught and degrades
`is_trained` to `false`; a well-formed artifact overwrites the vectorizer,
classifier, trained flag, and (when present) the category list. -/
def load_model (c : TransactionCategorizer) (disk : Disk) : TransactionCategorizer :=
  match disk c.model_path with
  | none => c
  | some (.error _) => { c with is_trained := false }
  | some (.ok a) =>
    { c with
      vectorizer := a.vectorizer
      classifier := a.classifier
      is_trained := a.is_trained
      categories := a.categories.getD c.categories }

/-- `TransactionCategorizer.__init__` (source lines 21-38): fresh sklearn
objects, untrained, the full category value list, then a best-effort
`load_model`. -/
def TransactionCategorizer.init (model_path : String) (disk : Disk) : TransactionCategorizer :=
  load_model
    { model_path := model_path
      vectorizer := defaultVectorizer
      classifier := defaultClassifier
      is_trained := false
      categories := CategoryLabelStrings }
    disk

/-- `TransactionCategorizer.predict` (source lines 115-133): untrained
instances return `(UNCATEGORIZED, 0.0)` before touching the input; trained
instances preprocess, vectorize, and take the classifier label and the max
of the probability row.  Any step may raise. -/
def TransactionCategorizer.predict (c : TransactionCategorizer)
    (description : String) (merchant_name : Option String) :
    Except PyError (String × ℚ) :=
  if c.is_trained = false then
    .ok (TransactionCategory.UNCATEGORIZED.value, 0)
  else
    match c.vectorizer.transformOne (preprocess_text description merchant_name) with
    | .error e => .error e
    | .ok text_vector =>
      match c.classifier.predictOne text_vector with
      | .error e => .error e
      | .ok prediction =>
        match c.classifier.predictProbaOne text_vector with
        | .error e => .error e
        | .ok probs =>
          match pyMax probs with
          | .error e => .error e
          | .ok confidence => .ok (prediction, confidence)

/-- One labeled row of the training DataFrame: `description`,
`merchant_name` (possibly absent), `category`. -/
structure TrainRow where
  description : String
  merchant_name : Option String
  category : String

/-- The typed failure of `train`: the `ValueError` raised by the size
precondition (the `InsufficientDataError` of the spec), or any exception
escaping the downstream sklearn calls. -/
inductive TrainError where
  | insufficientData : String → TrainError
  | other : PyError → TrainError

/-- The dict returned by a successful `train` (source lines 108-113). -/
structure TrainReport where
  accuracy : ℚ
  classification_report : String
  training_samples : Nat
  test_samples : Nat

/-- The sklearn internals of training, abstracted: `fit_transform` of the
vectorizer on the preprocessed corpus (returns the newly fitted vectorizer
and the feature matrix), and the split/fit/evaluate sequence (source lines
94-103, returns the fitted classifier and the report).  Either may raise. -/
structure FitEnv where
  fit_transform : List String → Except PyError (Vectorizer × List (List ℚ))
  split_fit_eval : List (List ℚ) → List String → Except PyError (Classifier × TrainReport)

/-- `TransactionCategorizer.create_features` (source lines 59-80): preprocess
each row (missing merchant read as `""`), then `fit_transform` when no
vocabulary is fitted yet, else `transform` each text. -/
def create_features (c : TransactionCategorizer) (env : FitEnv)
    (df : List TrainRow) : Except PyError (Vectorizer × List (List ℚ)) :=
  let texts := df.map fun r => preprocess_text r.description (some (r.merchant_name.getD ""))
  if c.vectorizer.hasVocabulary = false then
    env.fit_transform texts
  else
    match texts.mapM c.vectorizer.transformOne with
    | .error e => .error e
    | .ok m => .ok (c.vectorizer, m)

/-- `TransactionCategorizer.train` (source lines 82-113), with the mutable
instance and the disk threaded explicitly: fewer than 50 rows raise the
`ValueError` before any state is touched; otherwise features are built
(mutating the vectorizer), the classifier is fitted and evaluated, the
trained flag is set, and `save_model` persists the artifact. -/
def TransactionCategorizer.train (c : TransactionCategorizer) (disk : Disk)
    (env : FitEnv) (df : List TrainRow) :
    Except TrainError TrainReport × TransactionCategorizer × Disk :=
  if df.length < 50 then
    (.error (.insufficientData "Need at least 50 transactions to train the model"), c, disk)
  else
    match create_features c env df with
    | .error e => (.error (.other e), c, disk)
    | .ok (v, _X) =>
      let c1 := { c with vectorizer := v }
      match env.split_fit_eval _X (df.map (·.category)) with
      | .error e => (.error (.other e), c1, disk)
      | .ok (cl, report) =>
        let c2 := { c1 with classifier := cl, is_trained := true }
        (.ok report, c2, save_model c2 disk)

/-- `TransactionCategorizer.retrain_with_feedback` (source lines 155-161):
the body is `pass` — it returns `None` and touches neither the instance nor
the disk. -/
def TransactionCategorizer.retrain_with_feedback (c : TransactionCategorizer)
    (disk : Disk) (_transaction_data : List (String × String))
    (_correct_category : String) : Unit × TransactionCategorizer × Disk :=
  ((), c, disk)

/-- The fixed candidate-label phrases of the `HuggingFaceCategorizer`
(source lines 230-235). -/
def hf_candidate_labels : List String :=
  ["groceries and food", "restaurants and dining", "transportation and gas",
   "shopping and retail", "utilities and bills", "entertainment",
   "healthcare and medical", "financial services", "travel",
   "education", "charity and donations", "other expenses"]

/-- The lookup table of `category_mapping` (source lines 252-265). -/
def category_mapping_table : List (String × String) :=
  [("groceries and food", TransactionCategory.GROCERIES.value),
   ("restaurants and dining", TransactionCategory.RESTAURANTS.value),
   ("transportation and gas", TransactionCategory.GAS.value),
   ("shopping and retail", TransactionCategory.GENERAL_MERCHANDISE.value),
   ("utilities and bills", TransactionCategory.UTILITIES.value),
   ("entertainment", TransactionCategory.MOVIES.value),
   ("healthcare and medical", TransactionCategory.MEDICAL.value),
   ("financial services", TransactionCategory.BANK_FEES.value),
   ("travel", TransactionCategory.TRAVEL.value),
   ("education", TransactionCategory.EDUCATION.value),
   ("charity and donations", TransactionCategory.CHARITY.value),
   ("other expenses", TransactionCategory.UNCATEGORIZED.value)]

/-- `category_mapping.get(predicted_label, UNCATEGORIZED)` (source line 267):
dict lookup with `UNCATEGORIZED` as the default for unmapped labels. -/
def category_mapping (label : String) : String :=
  match category_mapping_table.find? (fun kv => kv.1 = label) with
  | some kv => kv.2
  | none => TransactionCategory.UNCATEGORIZED.value

/-- A constructed `HuggingFaceCategorizer`: its zero-shot pipeline, run on a
text and a candidate-label list, yields the top label and its score (the
`result.labels[0]` and `result.scores[0]` of source lines 245-249), or
raises. -/
structure HuggingFaceCategorizer where
  pipelineRun : String → List String → Except PyError (String × ℚ)

/-- The text built by `HuggingFaceCategorizer.predict` (source lines
241-243): the description, with `" at {merchant}"` appended when the
merchant is truthy. -/
def hfText (description : String) (merchant_name : Option String) : String :=
  if pyTruthy merchant_name then description ++ " at " ++ merchant_name.getD ""
  else description

/-- `HuggingFaceCategorizer.predict` (source lines 237-269): build the text,
run the zero-shot pipeline against the fixed candidate labels, and map the
top label through `category_mapping`. -/
def HuggingFaceCategorizer.predict (hf : HuggingFaceCategorizer)
    (description : String) (merchant_name : Option String) :
    Except PyError (String × ℚ) :=
  match hf.pipelineRun (hfText description merchant_name) hf_candidate_labels with
  | .error e => .error e
  | .ok (predicted_label, confidence) =>
    .ok (category_mapping predicted_label, confidence)

/-- The module-level mutable state around `categorize_transaction` (source
lines 272-281): the global `_ml_categorizer`, the lazily constructed global
`_hf_categorizer`, and, as environment, what evaluating the constructor
`HuggingFaceCategorizer()` would yield (a fresh instance, or the exception
its pipeline loading raises). -/
structure OrchestratorState where
  ml : TransactionCategorizer
  hf : Option HuggingFaceCategorizer
  hfInit : Except PyError HuggingFaceCategorizer

/-- The Hugging Face stage of `categorize_transaction` after the fallback
instance is at hand (source lines 298-304): predict, return the mapped
category when its confidence is strictly above 0.5, else `UNCATEGORIZED`. -/
def categorize_fallback_predict (st : OrchestratorState)
    (hf : HuggingFaceCategorizer) (description merchant_name : String) :
    Except PyError String × OrchestratorState :=
  match hf.predict description (some merchant_name) with
  | .error e => (.error e, st)
  | .ok (category, confidence) =>
    if confidence > mkRat 1 2 then (.ok category, st)
    else (.ok TransactionCategory.UNCATEGORIZED.value, st)

/-- The fallback stage of `categorize_transaction` (source lines 290-304):
lazily construct the global `_hf_categorizer`; a construction failure is
caught and yields `UNCATEGORIZED` with the global still unset. -/
def categorize_fallback (st : OrchestratorState)
    (description merchant_name : String) :
    Except PyError String × OrchestratorState :=
  match st.hf with
  | some hf => categorize_fallback_predict st hf description merchant_name
  | none =>
    match st.hfInit with
    | .error _ => (.ok TransactionCategory.UNCATEGORIZED.value, st)
    | .ok hf =>
      categorize_fallback_predict { st with hf := some hf } hf description merchant_name

/-- The body of the `try` block of `categorize_transaction` (source lines
283-304): consult the trained primary classifier first and short-circuit
when its confidence is strictly above 0.7, else fall through to the
fallback stage. -/
def categorize_attempt (st : OrchestratorState)
    (description merchant_name : String) :
    Except PyError String × OrchestratorState :=
  if st.ml.is_trained then
    match st.ml.predict description (some merchant_name) with
    | .error e => (.error e, st)
    | .ok (category, confidence) =>
      if confidence > mkRat 7 10 then (.ok category, st)
      else categorize_fallback st description merchant_name
  else categorize_fallback st description merchant_name

/-- The `except` clause of `categorize_transaction` (source lines 306-309):
any exception escaping the body is converted to `UNCATEGORIZED`; state
updates made before the exception persist. -/
def handleCategorizeErrors (r : Except PyError String × OrchestratorState) :
    String × OrchestratorState :=
  match r with
  | (.ok category, st) => (category, st)
  | (.error _, st) => (TransactionCategory.UNCATEGORIZED.value, st)

/-- `categorize_transaction` (source lines 276-309).  The `categories`
argument (the raw category hints) is accepted, as in the source, and never
read. -/
def categorize_transaction (st : OrchestratorState) (description : String)
    (merchant_name : String := "") (categories : Option (List String) := none) :
    String × OrchestratorState :=
  handleCategorizeErrors (categorize_attempt st description merchant_name)

/-! Concrete classifier states used by witnesses and counterexamples. -/

/-- An untrained categorizer at the default model path. -/
def untrainedCategorizer : TransactionCategorizer :=
  { model_path := "models/transaction_categorizer.pkl"
    vectorizer := defaultVectorizer
    classifier := defaultClassifier
    is_trained := false
    categories := CategoryLabelStrings }

/-- A trained categorizer whose random forest labels everything
`"groceries"` with probability row `[0.8, 0.2]`. -/
def trainedGroceries : TransactionCategorizer :=
  { model_path := "models/transaction_categorizer.pkl"
    vectorizer := { hasVocabulary := true, transformOne := fun _ => .ok [1] }
    classifier :=
      { predictOne := fun _ => .ok "groceries"
        predictProbaOne := fun _ => .ok [mkRat 4 5, mkRat 1 5] }
    is_trained := true
    categories := CategoryLabelStrings }

/-- A trained categorizer whose training labels were not category values:
its forest labels everything `"banana"` with probability row `[0.9, 0.1]`. -/
def trainedBanana : TransactionCategorizer :=
  { trainedGroceries with
    classifier :=
      { predictOne := fun _ => .ok "banana"
        predictProbaOne := fun _ => .ok [mkRat 9 10, mkRat 1 10] } }

/-- A trained categorizer reporting confidence exactly 0.7 on every input. -/
def trainedAtSeventy : TransactionCategorizer :=
  { trainedGroceries with
    classifier :=
      { predictOne := fun _ => .ok "groceries"
        predictProbaOne := fun _ => .ok [mkRat 7 10, mkRat 3 10] } }

/-- A fallback classifier whose pipeline ranks
`"restaurants and dining"` first with score 0.6 on every input. -/
def hfRestaurants : HuggingFaceCategorizer :=
  { pipelineRun := fun _ _ => .ok ("restaurants and dining", mkRat 3 5) }

/-- An orchestrator state with an untrained primary and a failing fallback
constructor. -/
def stUntrainedNoHF : OrchestratorState :=
  { ml := untrainedCategorizer, hf := none,
    hfInit := .error "Could not initialize HuggingFace categorizer" }

/-- An orchestrator state with a primary at confidence exactly 0.7 and a
constructed fallback at confidence 0.6. -/
def stGating : OrchestratorState :=
  { ml := trainedAtSeventy, hf := some hfRestaurants,
    hfInit := .ok hfRestaurants }

/-- An orchestrator state with a confident primary emitting a label outside
the enumeration. -/
def stBanana : OrchestratorState :=
  { ml := trainedBanana, hf := none,
    hfInit := .error "Could not initialize HuggingFace categorizer" }

/-- An orchestrator state with a primary confident on every input, the
empty input included. -/
def stConfidentEmpty : OrchestratorState :=
  { ml := trainedGroceries, hf := none,
    hfInit := .error "Could not initialize HuggingFace categorizer" }

/-- The empty disk: no model artifact at any path. -/
def emptyDisk : Disk := fun _ => none

/-- A training environment whose sklearn internals always raise. -/
def failingFitEnv : FitEnv :=
  { fit_transform := fun _ => .error "sklearn failure",
    split_fit_eval := fun _ _ => .error "sklearn failure" }

/-- The fallback instance actually used by the fallback stage of the
orchestrator on the next call: the already-constructed global if present,
else what a successful construction would produce. -/
def activeFallback (st : OrchestratorState) : Option HuggingFaceCategorizer :=
  match st.hf with
  | some hf => some hf
  | none =>
    match st.hfInit with
    | .ok hf => some hf
    | .error _ => none

/-- The preprocessing reference function exactly as the claim words it:
lowercase and strip the description, append the lowercased-stripped merchant
with a space separator when a merchant is present, then delete every
occurrence of exactly nine stop-terms (the claim omits `"transaction"`) as
literal substrings, then strip. -/
def preprocess_text_claimed (description : String) (merchant : Option String) : String :=
  let text := pyStrip (pyLower description)
  let text :=
    if pyTruthy merchant then text ++ " " ++ pyStrip (pyLower (merchant.getD ""))
    else text
  let text :=
    ["payment", "purchase", "debit", "credit", "pos",
     "atm", "withdrawal", "deposit", "transfer"].foldl
      (fun t term => pyRemoveSubstr t term) text
  pyStrip text

/-- The amended preprocessing reference function: as the claim words it, but
with the ten stop-terms the source actually removes, `"transaction"`
included, in the order of the source list. -/
def preprocess_text_amended_ref (description : String) (merchant : Option String) : String :=
  let text := pyStrip (pyLower description)
  let text :=
    if pyTruthy merchant then text ++ " " ++ pyStrip (pyLower (merchant.getD ""))
    else text
  let text :=
    ["payment", "purchase", "transaction", "debit", "credit",
     "pos", "atm", "withdrawal", "deposit", "transfer"].foldl
      (fun t term => pyRemoveSubstr t term) text
  pyStrip text

example : (categorize_transaction stUntrainedNoHF "STARBUCKS" "Starbucks" none).1
    = "uncategorized" := by decide
example : (categorize_transaction stBanana "coffee" "x" none).1 = "banana" := by decide
example : (categorize_transaction stGating "coffee" "x" none).1 = "restaurants" := by decide
example : (categorize_transaction stConfidentEmpty "" "" (some [])).1 = "groceries" := by
  decide
example : untrainedCategorizer.predict "abc" (some "m") = .ok ("uncategorized", 0) := rfl

/-! Helper lemmas shared by the claim theorems. -/

theorem category_mapping_mem (label : String) :
    category_mapping label ∈ CategoryLabelStrings := by
  unfold category_mapping
  cases h : category_mapping_table.find? (fun kv => kv.1 = label) with
  | none => decide
  | some kv =>
    have hm := List.mem_of_find?_eq_some h
    have hall : ∀ p ∈ category_mapping_table, p.2 ∈ CategoryLabelStrings := by decide
    exact hall kv hm

theorem hf_predict_mapped (hf : HuggingFaceCategorizer) (d : String)
    (m : Option String) (cat : String) (conf : ℚ)
    (h : hf.predict d m = .ok (cat, conf)) :
    ∃ l, cat = category_mapping l := by
  unfold HuggingFaceCategorizer.predict at h
  cases hrun : hf.pipelineRun (hfText d m) hf_candidate_labels with
  | error e => rw [hrun] at h; simp at h
  | ok res =>
    rw [hrun] at h
    obtain ⟨pl, c⟩ := res
    simp at h
    exact ⟨pl, h.1.symm⟩

theorem categorize_fallback_predict_ok_mem (st : OrchestratorState)
    (hf : HuggingFaceCategorizer) (d m : String) (cat : String)
    (h : (categorize_fallback_predict st hf d m).1 = .ok cat) :
    cat ∈ CategoryLabelStrings := by
  unfold categorize_fallback_predict at h
  cases hp : hf.predict d (some m) with
  | error e => rw [hp] at h; simp at h
  | ok res =>
    obtain ⟨c, conf⟩ := res
    obtain ⟨l, hl⟩ := hf_predict_mapped hf d (some m) c conf hp
    rw [hp] at h
    dsimp only at h
    split at h
    · simp at h
      rw [← h, hl]
      exact category_mapping_mem l
    · simp at h
      rw [← h]
      decide

theorem categorize_fallback_ok_mem (st : OrchestratorState) (d m : String)
    (cat : String) (h : (categorize_fallback st d m).1 = .ok cat) :
    cat ∈ CategoryLabelStrings := by
  unfold categorize_fallback at h
  cases hhf : st.hf with
  | some hf =>
    rw [hhf] at h
    exact categorize_fallback_predict_ok_mem _ _ _ _ _ h
  | none =>
    rw [hhf] at h
    cases hinit : st.hfInit with
    | error e =>
      rw [hinit] at h
      simp at h
      rw [← h]
      decide
    | ok hf =>
      rw [hinit] at h
      exact categorize_fallback_predict_ok_mem _ _ _ _ _ h

theorem predict_label_cases (c : TransactionCategorizer) (d : String)
    (m : Option String) (cat : String) (conf : ℚ)
    (h : c.predict d m = .ok (cat, conf)) :
    cat = TransactionCategory.UNCATEGORIZED.value ∨
      ∃ v, c.classifier.predictOne v = .ok cat := by
  unfold TransactionCategorizer.predict at h
  cases ht : c.is_trained with
  | false =>
    simp [ht] at h
    exact .inl h.1.symm
  | true =>
    simp [ht] at h
    cases hv : c.vectorizer.transformOne (preprocess_text d m) with
    | error e => rw [hv] at h; simp at h
    | ok v =>
      rw [hv] at h
      dsimp only at h
      cases hpred : c.classifier.predictOne v with
      | error e => rw [hpred] at h; simp at h
      | ok pr =>
        rw [hpred] at h
        dsimp only at h
        cases hprobs : c.classifier.predictProbaOne v with
        | error e => rw [hprobs] at h; simp at h
        | ok probs =>
          rw [hprobs] at h
          dsimp only at h
          cases hmax : pyMax probs with
          | error e => rw [hmax] at h; simp at h
          | ok cf =>
            rw [hmax] at h
            simp at h
            exact .inr ⟨v, h.1 ▸ hpred⟩

theorem categorize_attempt_ok_mem (st : OrchestratorState) (d m : String)
    (cat : String)
    (hcl : ∀ v s, st.ml.classifier.predictOne v = .ok s → s ∈ CategoryLabelStrings)
    (h : (categorize_attempt st d m).1 = .ok cat) :
    cat ∈ CategoryLabelStrings := by
  unfold categorize_attempt at h
  cases ht : st.ml.is_trained with
  | false =>
    simp [ht] at h
    exact categorize_fallback_ok_mem st d m cat h
  | true =>
    simp [ht] at h
    cases hp : st.ml.predict d (some m) with
    | error e => rw [hp] at h; simp at h
    | ok res =>
      obtain ⟨pr, conf⟩ := res
      rw [hp] at h
      dsimp only at h
      split at h
      · simp at h
        rcases predict_label_cases st.ml d (some m) pr conf hp with h1 | ⟨v, h2⟩
        · rw [← h, h1]
          decide
        · exact h ▸ hcl v pr h2
      · exact categorize_fallback_ok_mem st d m cat h

example : pyLower "AbC" = "abc" := by decide
example : pyStrip "  a b  " = "a b" := by decide
example : pyRemoveSubstr "xpaymenty payment" "payment" = "xy " := by decide
example : preprocess_text "  Transaction ABC " none = "abc" := by decide
example : preprocess_text "Coffee" (some " Starbucks ") = "coffee starbucks" := by decide
example : preprocess_text "Coffee" (some "") = "coffee" := by decide
example : preprocess_text "creditransfer" none = "ransfer" := by decide

/-- C5 counterexample: the preprocessing of the source does not equal the
reference function of the claim — the source also removes `"transaction"`
as a literal substring, which the claim's nine-term stop-list omits. -/
theorem preprocess_text_ne_claimed_cex :
    preprocess_text "transaction fee" none ≠
      preprocess_text_claimed "transaction fee" none := by decide

/-- C5 (amended): text preprocessing equals the reference function that
lowercases and strips the description, appends the lowercased-stripped
merchant with a space separator when a merchant is present, then deletes
every occurrence of exactly the TEN stop-terms "payment", "purchase",
"transaction", "debit", "credit", "pos", "atm", "withdrawal", "deposit",
"transfer" (in that order) as literal substrings, then strips. -/
theorem preprocess_text_eq_amended_ref (description : String)
    (merchant : Option String) :
    preprocess_text description merchant =
      preprocess_text_amended_ref description merchant := rfl

/-- C7: `predict` on an untrained primary classifier returns exactly
`(UNCATEGORIZED, 0.0)` and does not raise, regardless of the description
and merchant arguments: the trained-flag check precedes any use of the
input, so no step of the trained path can be reached. -/
theorem predict_untrained_default (c : TransactionCategorizer) (d : String)
    (m : Option String) (h : c.is_trained = false) :
    c.predict d m = .ok (TransactionCategory.UNCATEGORIZED.value, 0) := by
  unfold TransactionCategorizer.predict
  rw [h]
  simp

/-- C7 witness: the fresh untrained categorizer on a concrete garbage
input. -/
theorem predict_untrained_default_witness :
    untrainedCategorizer.is_trained = false ∧
      untrainedCategorizer.predict "@@ garbage ##" (some "") =
        .ok (TransactionCategory.UNCATEGORIZED.value, 0) :=
  ⟨rfl, predict_untrained_default untrainedCategorizer "@@ garbage ##" (some "") rfl⟩

/-- C9: `retrain_with_feedback` is a no-op — for every transaction payload
and category argument it returns `None`, leaves the categorizer and the
persisted artifact unchanged, and consequently later `predict` calls are
unaffected. -/
theorem retrain_with_feedback_noop (c : TransactionCategorizer) (disk : Disk)
    (transaction_data : List (String × String)) (correct_category : String) :
    c.retrain_with_feedback disk transaction_data correct_category = ((), c, disk) ∧
      ∀ d m, ((c.retrain_with_feedback disk transaction_data correct_category).2.1).predict d m
        = c.predict d m :=
  ⟨rfl, fun _ _ => rfl⟩

/-- C10: the `categories` (raw category hints) argument of
`categorize_transaction` has no influence on the result: the parameter is
accepted and never read, so any two hint arguments give identical results
in identical states. -/
theorem categorize_hints_noninterference (st : OrchestratorState) (d m : String)
    (h1 h2 : Option (List String)) :
    categorize_transaction st d m h1 = categorize_transaction st d m h2 := rfl

/-- C3: `train` raises the insufficient-data `ValueError` if and only if
the labeled corpus has fewer than 50 rows, and when it raises, the
in-memory categorizer (vectorizer, classifier, `is_trained`, categories)
and the persisted artifact are returned unchanged.  With 50 or more rows
the precondition check is passed: any later failure comes from the sklearn
internals and is a different error. -/
theorem train_insufficient_data_iff (c : TransactionCategorizer) (disk : Disk)
    (env : FitEnv) (df : List TrainRow) :
    ((∃ msg, (c.train disk env df).1 = .error (.insufficientData msg)) ↔
        df.length < 50) ∧
      (df.length < 50 →
        c.train disk env df =
          (.error (.insufficientData "Need at least 50 transactions to train the model"),
           c, disk)) := by
  by_cases hlen : df.length < 50
  · have hres : c.train disk env df =
        (.error (.insufficientData "Need at least 50 transactions to train the model"),
         c, disk) := by
      unfold TransactionCategorizer.train
      rw [if_pos hlen]
    exact ⟨⟨fun _ => hlen, fun _ => ⟨_, by rw [hres]⟩⟩, fun _ => hres⟩
  · refine ⟨⟨?_, fun h => absurd h hlen⟩, fun h => absurd h hlen⟩
    rintro ⟨msg, hmsg⟩
    unfold TransactionCategorizer.train at hmsg
    rw [if_neg hlen] at hmsg
    cases hcf : create_features c env df with
    | error e => rw [hcf] at hmsg; simp at hmsg
    | ok res =>
      obtain ⟨v, X⟩ := res
      rw [hcf] at hmsg
      dsimp only at hmsg
      cases hfit : env.split_fit_eval X (df.map (·.category)) with
      | error e => rw [hfit] at hmsg; simp at hmsg
      | ok res2 =>
        obtain ⟨cl, rep⟩ := res2
        rw [hfit] at hmsg
        simp at hmsg

/-- C3 witness: a 49-row corpus makes `train` return the insufficient-data
error with the categorizer and the disk unchanged. -/
theorem train_insufficient_data_iff_witness :
    untrainedCategorizer.train emptyDisk failingFitEnv
        (List.replicate 49 ⟨"starbucks", none, "restaurants"⟩) =
      (.error (.insufficientData "Need at least 50 transactions to train the model"),
       untrainedCategorizer, emptyDisk) :=
  (train_insufficient_data_iff untrainedCategorizer emptyDisk failingFitEnv
      (List.replicate 49 ⟨"starbucks", none, "restaurants"⟩)).2 (by simp)

/-- C6: round-trip through the Model Store — for a trained categorizer,
`save_model` followed by `load_model` into any categorizer with the same
model path (the same instance or a fresh one) yields a categorizer whose
`predict` output on any fixed input equals the pre-save output: same
category and same confidence. -/
theorem save_load_roundtrip (c c0 : TransactionCategorizer) (disk : Disk)
    (ht : c.is_trained = true) (hpath : c0.model_path = c.model_path)
    (d : String) (m : Option String) :
    (load_model c0 (save_model c disk)).predict d m = c.predict d m := by
  have hsave : save_model c disk =
      fun p =>
        if p = c.model_path then
          some (.ok ⟨c.vectorizer, c.classifier, c.is_trained, some c.categories⟩)
        else disk p := by
    unfold save_model
    rw [ht]
    simp
  have hload : load_model c0 (save_model c disk) =
      { c0 with
        vectorizer := c.vectorizer
        classifier := c.classifier
        is_trained := c.is_trained
        categories := c.categories } := by
    unfold load_model
    rw [hsave]
    dsimp only
    rw [if_pos hpath]
    rfl
  rw [hload]
  unfold TransactionCategorizer.predict
  rfl

/-- C6 witness: the trained concrete categorizer saved to the empty disk
and loaded into a fresh untrained categorizer at the same path predicts
identically on a fixed input. -/
theorem save_load_roundtrip_witness :
    (load_model untrainedCategorizer (save_model trainedGroceries emptyDisk)).predict
        "whole foods" (some "wf") =
      trainedGroceries.predict "whole foods" (some "wf") :=
  save_load_roundtrip trainedGroceries untrainedCategorizer emptyDisk rfl rfl
    "whole foods" (some "wf")

/-- C8: if the primary classifier is untrained (or reports confidence not
above 0.7) and construction of the fallback classifier fails, `categorize`
returns `UNCATEGORIZED` without raising and with the fallback still
unconstructed. -/
theorem fallback_unavailable_uncategorized (st : OrchestratorState) (d m : String)
    (hints : Option (List String)) (e : PyError)
    (hml : st.ml.is_trained = false ∨
      ∃ cat conf, st.ml.predict d (some m) = .ok (cat, conf) ∧ ¬ conf > mkRat 7 10)
    (hnone : st.hf = none) (hinit : st.hfInit = .error e) :
    categorize_transaction st d m hints =
        (TransactionCategory.UNCATEGORIZED.value, st) ∧
      (categorize_transaction st d m hints).2.hf = none := by
  have hfb : categorize_fallback st d m =
      (.ok TransactionCategory.UNCATEGORIZED.value, st) := by
    unfold categorize_fallback
    rw [hnone]
    dsimp only
    rw [hinit]
  have hattempt : categorize_attempt st d m =
      (.ok TransactionCategory.UNCATEGORIZED.value, st) := by
    unfold categorize_attempt
    rcases hml with hunt | ⟨cat, conf, hpred, hconf⟩
    · rw [if_neg (by simp [hunt])]
      exact hfb
    · by_cases htr : st.ml.is_trained = true
      · rw [if_pos htr, hpred]
        dsimp only
        rw [if_neg hconf]
        exact hfb
      · rw [if_neg htr]
        exact hfb
  have hmain : categorize_transaction st d m hints =
      (TransactionCategory.UNCATEGORIZED.value, st) := by
    show handleCategorizeErrors (categorize_attempt st d m) = _
    rw [hattempt]
    rfl
  exact ⟨hmain, by rw [hmain]; exact hnone⟩

/-- C8 witness: an untrained primary with a failing fallback constructor on
a concrete input. -/
theorem fallback_unavailable_uncategorized_witness :
    categorize_transaction stUntrainedNoHF "STARBUCKS STORE 123" "Starbucks" none =
        (TransactionCategory.UNCATEGORIZED.value, stUntrainedNoHF) ∧
      (categorize_transaction stUntrainedNoHF "STARBUCKS STORE 123" "Starbucks" none).2.hf
        = none :=
  fallback_unavailable_uncategorized stUntrainedNoHF "STARBUCKS STORE 123" "Starbucks"
    none "Could not initialize HuggingFace categorizer" (.inl rfl) rfl rfl

/-- C2: confidence gating is strict at both thresholds.  With a trained
primary reporting `(cat, conf)`: if `conf > 0.7` the primary's category is
returned immediately; if not (confidence exactly 0.7 included), the call
falls through to the fallback stage.  With a constructed fallback reporting
`(mcat, fconf)`: the mapped category is returned only when `fconf > 0.5`,
and `fconf` exactly 0.5 falls through to the `UNCATEGORIZED` default. -/
theorem confidence_gating (st : OrchestratorState) (d m : String)
    (hints : Option (List String)) (hf : HuggingFaceCategorizer)
    (cat mcat : String) (conf fconf : ℚ)
    (ht : st.ml.is_trained = true)
    (hp : st.ml.predict d (some m) = .ok (cat, conf))
    (hhf : st.hf = some hf)
    (hfp : hf.predict d (some m) = .ok (mcat, fconf)) :
    (conf > mkRat 7 10 → categorize_transaction st d m hints = (cat, st)) ∧
      (¬ conf > mkRat 7 10 →
        categorize_transaction st d m hints =
          handleCategorizeErrors (categorize_fallback st d m)) ∧
      (¬ conf > mkRat 7 10 → fconf > mkRat 1 2 →
        categorize_transaction st d m hints = (mcat, st)) ∧
      (¬ conf > mkRat 7 10 → fconf = mkRat 1 2 →
        categorize_transaction st d m hints =
          (TransactionCategory.UNCATEGORIZED.value, st)) := by
  have hattempt : categorize_attempt st d m =
      if conf > mkRat 7 10 then (Except.ok cat, st)
      else categorize_fallback st d m := by
    unfold categorize_attempt
    rw [if_pos ht, hp]
  have hct : categorize_transaction st d m hints =
      handleCategorizeErrors (categorize_attempt st d m) := rfl
  have hfb : categorize_fallback st d m =
      if fconf > mkRat 1 2 then (Except.ok mcat, st)
      else (Except.ok TransactionCategory.UNCATEGORIZED.value, st) := by
    unfold categorize_fallback
    rw [hhf]
    dsimp only
    unfold categorize_fallback_predict
    rw [hfp]
  refine ⟨?_, ?_, ?_, ?_⟩
  · intro hc
    rw [hct, hattempt, if_pos hc]
    rfl
  · intro hc
    rw [hct, hattempt, if_neg hc]
  · intro hc hfc
    rw [hct, hattempt, if_neg hc, hfb, if_pos hfc]
    rfl
  · intro hc hfc
    rw [hct, hattempt, if_neg hc, hfb,
      if_neg (by rw [hfc]; exact lt_irrefl (mkRat 1 2))]
    rfl

/-- C2 witness: a primary at confidence exactly 0.7 does not short-circuit
and the fallback at 0.6 is returned. -/
theorem confidence_gating_witness :
    categorize_transaction stGating "coffee" "x" none =
      (TransactionCategory.RESTAURANTS.value, stGating) :=
  (confidence_gating stGating "coffee" "x" none hfRestaurants
      "groceries" (TransactionCategory.RESTAURANTS.value) (mkRat 7 10) (mkRat 3 5)
      rfl rfl rfl rfl).2.2.1 (by decide) (by decide)

/-- The fallback stage never yields a category when the fallback instance in
use reports confidence not above 0.5 (and failures at any point degrade to
`UNCATEGORIZED` through the orchestrator's handler). -/
theorem fallback_not_confident (st : OrchestratorState) (d m : String)
    (hyp : ∀ hf, activeFallback st = some hf →
      ∀ cat conf, hf.predict d (some m) = .ok (cat, conf) → ¬ conf > mkRat 1 2) :
    (handleCategorizeErrors (categorize_fallback st d m)).1 =
      TransactionCategory.UNCATEGORIZED.value := by
  have hpredCase : ∀ hf st2, activeFallback st = some hf →
      (handleCategorizeErrors (categorize_fallback_predict st2 hf d m)).1 =
        TransactionCategory.UNCATEGORIZED.value := by
    intro hf st2 hact
    unfold categorize_fallback_predict
    cases hq : hf.predict d (some m) with
    | error e => rfl
    | ok res =>
      obtain ⟨cat, conf⟩ := res
      dsimp only
      rw [if_neg (hyp hf hact cat conf hq)]
      rfl
  unfold categorize_fallback
  cases hhf : st.hf with
  | some hf =>
    dsimp only
    exact hpredCase hf st (by unfold activeFallback; rw [hhf])
  | none =>
    dsimp only
    cases hinit : st.hfInit with
    | error e => rfl
    | ok hf =>
      dsimp only
      exact hpredCase hf _ (by unfold activeFallback; rw [hhf]; dsimp only; rw [hinit])

/-- C4 counterexample: the claim fails for a trained classifier state that
is confident on the empty input — `categorize("", "", [])` then returns the
primary's category, not `UNCATEGORIZED`, so the result is not
`UNCATEGORIZED` for every classifier state. -/
theorem categorize_empty_input_cex :
    (categorize_transaction stConfidentEmpty "" "" (some [])).1 ≠
      TransactionCategory.UNCATEGORIZED.value := by decide

/-- C4 (amended): `categorize("", "", [])` returns `UNCATEGORIZED` for every
classifier state in which no stage is confident on the empty input: whenever
the primary's prediction on it does not exceed confidence 0.7 and the
fallback instance in use (already constructed, or freshly constructed) does
not exceed confidence 0.5 on it. -/
theorem categorize_empty_input_uncategorized (st : OrchestratorState)
    (hml : ∀ cat conf, st.ml.predict "" (some "") = .ok (cat, conf) →
      ¬ conf > mkRat 7 10)
    (hhf : ∀ hf, activeFallback st = some hf →
      ∀ cat conf, hf.predict "" (some "") = .ok (cat, conf) → ¬ conf > mkRat 1 2) :
    (categorize_transaction st "" "" (some [])).1 =
      TransactionCategory.UNCATEGORIZED.value := by
  show (handleCategorizeErrors (categorize_attempt st "" "")).1 = _
  unfold categorize_attempt
  by_cases htr : st.ml.is_trained = true
  · rw [if_pos htr]
    cases hp : st.ml.predict "" (some "") with
    | error e => rfl
    | ok res =>
      obtain ⟨cat, conf⟩ := res
      dsimp only
      rw [if_neg (hml cat conf hp)]
      exact fallback_not_confident st "" "" hhf
  · rw [if_neg htr]
    exact fallback_not_confident st "" "" hhf

/-- C4 witness: the untrained primary with unavailable fallback on the empty
input. -/
theorem categorize_empty_input_uncategorized_witness :
    (categorize_transaction stUntrainedNoHF "" "" (some [])).1 =
      TransactionCategory.UNCATEGORIZED.value :=
  categorize_empty_input_uncategorized stUntrainedNoHF
    (by
      intro cat conf hp
      have hp2 : (Except.ok (("uncategorized" : String), (0 : ℚ)) :
          Except PyError (String × ℚ)) = .ok (cat, conf) := hp
      simp only [Except.ok.injEq, Prod.mk.injEq] at hp2
      rw [← hp2.2]
      decide)
    (by
      intro hf hact cat conf hq
      rw [show activeFallback stUntrainedNoHF = none from rfl] at hact
      cases hact)

/-- C1 counterexample: with a primary classifier state whose training labels
lie outside the enumeration (reachable, since `train` accepts any strings
in the category column), `categorize_transaction` returns that raw label,
which is not a member of the `CategoryLabel` enumeration. -/
theorem categorize_enum_member_cex :
    (categorize_transaction stBanana "coffee" "x" none).1 ∉ CategoryLabelStrings := by
  decide

/-- C1 (amended): `categorize_transaction` never propagates an exception —
every error of the try-body is converted to `UNCATEGORIZED` by the handler
(first conjunct; totality is by construction of the embedding) — and its
result is a member of the `CategoryLabel` enumeration whenever every label
the primary's classifier can emit is a member of the enumeration (as is the
case when it is untrained or trained on enumeration-labeled data). -/
theorem categorize_no_raise_enum_member (st : OrchestratorState) (d m : String)
    (hints : Option (List String))
    (hcl : ∀ v s, st.ml.classifier.predictOne v = .ok s → s ∈ CategoryLabelStrings) :
    (∀ e, (categorize_attempt st d m).1 = .error e →
        (categorize_transaction st d m hints).1 =
          TransactionCategory.UNCATEGORIZED.value) ∧
      (categorize_transaction st d m hints).1 ∈ CategoryLabelStrings := by
  constructor
  · intro e he
    show (handleCategorizeErrors (categorize_attempt st d m)).1 = _
    rcases hat : categorize_attempt st d m with ⟨r, st2⟩
    rw [hat] at he
    dsimp only at he
    rw [he]
    rfl
  · show (handleCategorizeErrors (categorize_attempt st d m)).1 ∈ _
    rcases hat : categorize_attempt st d m with ⟨r, st2⟩
    cases r with
    | error e =>
      dsimp only [handleCategorizeErrors]
      decide
    | ok cat =>
      have hok : (categorize_attempt st d m).1 = .ok cat := by rw [hat]
      exact categorize_attempt_ok_mem st d m cat hcl hok

/-- C1 witness: a concrete state whose primary only emits `"groceries"`. -/
theorem categorize_no_raise_enum_member_witness :
    (categorize_transaction stGating "coffee" "x" none).1 ∈ CategoryLabelStrings :=
  (categorize_no_raise_enum_member stGating "coffee" "x" none
    (by
      intro v s h
      have h2 : (Except.ok ("groceries" : String) : Except PyError String) = .ok s := h
      simp only [Except.ok.injEq] at h2
      rw [← h2]
      decide)).2

end IntelliFinance
